import Mathlib

/-!
Shallow embedding of the PipGPT backend core (Express + MongoDB + AWS adapters):
the chat listing projections (UserChats / PinnedChats) with their
pin/unpin/rename/delete state machine, the per-user conversation context
buffer, the generation gateway, the instant-lookup data-source selector and
the document-delete re-ingestion protocol.

Conventions of the embedding:
- Mongo ObjectIds are modelled as `Nat`; timestamps (`Date.now`) as `Nat`
  supplied explicitly at each operation that stamps one.
- A per-user projection document (`UserChats.findOne` may return nothing) is
  an `Option (List ChatSummary)`; `none` means the document does not exist.
- Mongo single-document updates (`$push`, `$pull`, positional `$set`) are
  translated to the corresponding list operations; `modifiedCount` is `0`
  exactly when the update left the document unchanged (Mongo counts actual
  modifications, not matches).
- External backends (Bedrock generation, ingestion jobs) are oracles passed
  in as parameters; a thrown AWS error is the `failure` outcome.
-/

namespace PipGPT

/-- An entry of the `chats` / `pinnedChats` arrays: `{_id, title, createdAt}`
as in `models/pinnedChats.js` (the `UserChats` schema is not in the sources;
its entries are modelled from the spec with the same three fields). -/
structure ChatSummary where
  id : Nat
  title : String
  createdAt : Nat
deriving Repr, DecidableEq

/-- One turn of a chat history: `{role, content}` from `models/chat.js`
(the optional `img` field is irrelevant to every claim and omitted). -/
structure Turn where
  role : String
  content : String
deriving Repr, DecidableEq

/-- A document of the `Chat` collection: `{_id, userId, history}`. -/
structure ChatRecord where
  id : Nat
  userId : String
  history : List Turn
deriving Repr, DecidableEq

/-- The persistent state touched by the chat routes: the `Chat` collection
and the (at most one per user, here: for the hardcoded "demouser") documents
of the `UserChats` and `PinnedChats` collections. -/
structure ChatState where
  chats : List ChatRecord
  userChats : Option (List ChatSummary)
  pinnedChats : Option (List ChatSummary)
deriving Repr, DecidableEq

/-- The `chats` array of the user's `UserChats` document (empty if absent). -/
def activeList (s : ChatState) : List ChatSummary :=
  s.userChats.getD []

/-- The `pinnedChats` array of the user's `PinnedChats` document. -/
def pinnedList (s : ChatState) : List ChatSummary :=
  s.pinnedChats.getD []

/-- Number of summaries carrying a given chat id in a projection array. -/
def countId (i : Nat) (l : List ChatSummary) : Nat :=
  l.countP (fun c => c.id == i)

/-- POST /api/chats: save a new `Chat` with the two initial turns, then seed
or `$push` the summary `{_id, title: text.substring(0,30)}` into `UserChats`
(creating the projection document if the user has none). Returns 201. -/
def createChat (s : ChatState) (freshId : Nat) (text assistantResponse : String)
    (now : Nat) : ChatState × Nat :=
  let saved : ChatRecord :=
    { id := freshId, userId := "demouser",
      history := [{ role := "user", content := text },
                  { role := "assistant", content := assistantResponse }] }
  let summary : ChatSummary :=
    { id := freshId, title := text.take 30, createdAt := now }
  match s.userChats with
  | none =>
      ({ s with chats := s.chats ++ [saved], userChats := some [summary] }, 201)
  | some cs =>
      ({ s with chats := s.chats ++ [saved], userChats := some (cs ++ [summary]) }, 201)

/-- POST /api/pinnedchats: find (or freshly build) the `PinnedChats` document;
if the id is already pinned do nothing at all, otherwise push
`{_id: chatId, title}` (whose `createdAt` is stamped by the schema default,
i.e. the current time) and `$pull` the id from `UserChats.chats`.
Always answers 201, so only the state is returned. -/
def pinChat (s : ChatState) (chatId : Nat) (title : String) (now : Nat) : ChatState :=
  let pcs := s.pinnedChats.getD []
  if pcs.any (fun c => c.id == chatId) then
    s
  else
    { s with
      pinnedChats := some (pcs ++ [{ id := chatId, title := title, createdAt := now }]),
      userChats := s.userChats.map (fun cs => cs.filter (fun c => c.id != chatId)) }

/-- DELETE /api/pinnedchats/:chatId: if the `PinnedChats` document exists and
holds the id, remove that summary object and `$push` the very same object
(title and createdAt intact) into `UserChats.chats`, upserting the document.
Always answers 200, so only the state is returned. -/
def unpinChat (s : ChatState) (chatId : Nat) : ChatState :=
  match s.pinnedChats with
  | none => s
  | some pcs =>
    match pcs.find? (fun c => c.id == chatId) with
    | none => s
    | some chatToMove =>
      { s with
        pinnedChats := some (pcs.filter (fun c => c.id != chatId)),
        userChats := some (s.userChats.getD [] ++ [chatToMove]) }

/-- The positional `$set {"chats.$.title": t}`: retitle the first array
element whose `_id` matches. -/
def setTitleFirst (chatId : Nat) (newTitle : String) :
    List ChatSummary → List ChatSummary
  | [] => []
  | c :: cs =>
      if c.id == chatId then { c with title := newTitle } :: cs
      else c :: setTitleFirst chatId newTitle cs

/-- `updateOne({userId, "arr._id": chatId}, {$set: {"arr.$.title": t}})` on an
optional projection document: returns the new document and `modifiedCount`
(which is 0 when no document matched or the positional set changed nothing). -/
def mongoSetTitle (doc : Option (List ChatSummary)) (chatId : Nat)
    (newTitle : String) : Option (List ChatSummary) × Nat :=
  match doc with
  | none => (none, 0)
  | some l =>
    let l2 := setTitleFirst chatId newTitle l
    (some l2, if l2 = l then 0 else 1)

/-- PUT /api/chats/:id/rename: try the title update on `UserChats`; only when
its `modifiedCount` is 0 try `PinnedChats`; answer 200 when the last attempt
modified a row, else 404. -/
def renameChat (s : ChatState) (chatId : Nat) (newTitle : String) : ChatState × Nat :=
  let r1 := mongoSetTitle s.userChats chatId newTitle
  if r1.2 = 0 then
    let r2 := mongoSetTitle s.pinnedChats chatId newTitle
    ({ s with userChats := r1.1, pinnedChats := r2.1 },
     if r2.2 > 0 then 200 else 404)
  else
    ({ s with userChats := r1.1 }, 200)

/-- `Chat.deleteOne({_id: chatId})`: drop the first record with that id,
reporting `deletedCount`. -/
def deleteFirstRecord (chatId : Nat) : List ChatRecord → List ChatRecord × Nat
  | [] => ([], 0)
  | c :: cs =>
      if c.id == chatId then (cs, 1)
      else
        let r := deleteFirstRecord chatId cs
        (c :: r.1, r.2)

/-- DELETE /api/chats/:id: `$pull` the id from `UserChats.chats` and from
`PinnedChats.pinnedChats` (no-ops on absent documents or ids), then
`deleteOne` the `Chat` record; 200 when `deletedCount > 0`, else 404. -/
def deleteChat (s : ChatState) (chatId : Nat) : ChatState × Nat :=
  let ucs := s.userChats.map (fun cs => cs.filter (fun c => c.id != chatId))
  let pcs := s.pinnedChats.map (fun cs => cs.filter (fun c => c.id != chatId))
  let r := deleteFirstRecord chatId s.chats
  ({ chats := r.1, userChats := ucs, pinnedChats := pcs },
   if r.2 > 0 then 200 else 404)

/-- GET /api/chats/:id: `Chat.findOne({_id, userId: "demouser"})`, always sent
with status 200 — the handler has no not-found branch, a missing chat is sent
as a 200 with a null body. -/
def getChat (s : ChatState) (chatId : Nat) : Nat × Option ChatRecord :=
  (200, s.chats.find? (fun c => c.id == chatId && c.userId == "demouser"))

/-- One client-visible mutating operation on the chat listing state. -/
inductive ChatOp where
  | create (freshId : Nat) (text assistantResponse : String) (now : Nat)
  | pin (chatId : Nat) (title : String) (now : Nat)
  | unpin (chatId : Nat)
  | rename (chatId : Nat) (newTitle : String)
  | delete (chatId : Nat)
deriving Repr, DecidableEq

/-- Mongo generates a fresh ObjectId for every saved `Chat`; an id handed to
`create` therefore never already occurs in either projection. The other
operations take caller-supplied ids and need no side condition. -/
def opFresh (s : ChatState) : ChatOp → Prop
  | .create freshId _ _ _ =>
      countId freshId (activeList s) = 0 ∧ countId freshId (pinnedList s) = 0
  | _ => True

/-- Effect of one completed operation on the state. -/
def applyOp (s : ChatState) : ChatOp → ChatState
  | .create i t a n => (createChat s i t a n).1
  | .pin i t n => pinChat s i t n
  | .unpin i => unpinChat s i
  | .rename i t => (renameChat s i t).1
  | .delete i => (deleteChat s i).1

/-- The state before any chat was created: no records, no projection docs. -/
def initialState : ChatState :=
  { chats := [], userChats := none, pinnedChats := none }

/-- States reachable from the initial state by completed operations whose
created ids are fresh. -/
inductive Reachable : ChatState → Prop where
  | init : Reachable initialState
  | step (s : ChatState) (op : ChatOp) (hs : Reachable s) (hf : opFresh s op) :
      Reachable (applyOp s op)

/-! ### Counting helpers for the projection arrays -/

lemma countId_nil (i : Nat) : countId i [] = 0 := rfl

lemma countId_append (i : Nat) (a b : List ChatSummary) :
    countId i (a ++ b) = countId i a + countId i b :=
  List.countP_append _ a b

lemma countId_singleton (i : Nat) (c : ChatSummary) :
    countId i [c] = if c.id = i then 1 else 0 := by
  simp [countId, List.countP_cons]

lemma countId_eq_zero (i : Nat) (l : List ChatSummary) :
    countId i l = 0 ↔ ∀ c ∈ l, c.id ≠ i := by
  simp [countId, List.countP_eq_zero]

lemma countId_pos (i : Nat) (l : List ChatSummary) :
    0 < countId i l ↔ ∃ c ∈ l, c.id = i := by
  simp [countId, List.countP_pos_iff]

lemma any_id_eq_countId_pos (i : Nat) (l : List ChatSummary) :
    l.any (fun c => c.id == i) = true ↔ 0 < countId i l := by
  rw [countId_pos]
  simp [List.any_eq_true]

lemma countId_filter_self (i : Nat) (l : List ChatSummary) :
    countId i (l.filter (fun c => c.id != i)) = 0 := by
  rw [countId_eq_zero]
  intro c hc
  have := (List.mem_filter.mp hc).2
  simpa using this

lemma countId_filter_ne (i j : Nat) (l : List ChatSummary) (h : j ≠ i) :
    countId j (l.filter (fun c => c.id != i)) = countId j l := by
  unfold countId
  rw [List.countP_filter]
  have hfun : (fun c : ChatSummary => (c.id == j) && (c.id != i)) =
      (fun c : ChatSummary => c.id == j) := by
    funext c
    by_cases hc : c.id = j
    · simp [hc]
      omega
    · simp [hc]
  rw [hfun]

lemma countId_setTitleFirst (i j : Nat) (t : String) (l : List ChatSummary) :
    countId j (setTitleFirst i t l) = countId j l := by
  induction l with
  | nil => rfl
  | cons c cs ih =>
    by_cases hc : c.id = i
    · simp [setTitleFirst, hc, countId, List.countP_cons]
    · simp only [setTitleFirst, show (c.id == i) = false by simpa using hc,
        Bool.false_eq_true, if_false]
      simp only [countId, List.countP_cons] at *
      omega

/-! ### Shape of each operation's effect on the projections -/

lemma createChat_activeList (s : ChatState) (i : Nat) (t a : String) (n : Nat) :
    activeList (createChat s i t a n).1 =
      activeList s ++ [{ id := i, title := t.take 30, createdAt := n }] := by
  cases h : s.userChats <;> simp [createChat, activeList, h]

lemma createChat_pinnedList (s : ChatState) (i : Nat) (t a : String) (n : Nat) :
    pinnedList (createChat s i t a n).1 = pinnedList s := by
  cases h : s.userChats <;> simp [createChat, pinnedList, h]

lemma pinChat_of_pinned (s : ChatState) (i : Nat) (t : String) (n : Nat)
    (h : 0 < countId i (pinnedList s)) : pinChat s i t n = s := by
  have hany : (s.pinnedChats.getD []).any (fun c => c.id == i) = true := by
    rw [show s.pinnedChats.getD [] = pinnedList s from rfl,
      any_id_eq_countId_pos]
    exact h
  simp [pinChat, hany]

lemma pinChat_pinnedList_of_not_pinned (s : ChatState) (i : Nat) (t : String)
    (n : Nat) (h : countId i (pinnedList s) = 0) :
    pinnedList (pinChat s i t n) =
      pinnedList s ++ [{ id := i, title := t, createdAt := n }] := by
  have hany : (s.pinnedChats.getD []).any (fun c => c.id == i) = false := by
    rw [Bool.eq_false_iff]
    intro hc
    rw [show s.pinnedChats.getD [] = pinnedList s from rfl,
      any_id_eq_countId_pos] at hc
    omega
  simp [pinChat, hany, pinnedList]

lemma pinChat_activeList_of_not_pinned (s : ChatState) (i : Nat) (t : String)
    (n : Nat) (h : countId i (pinnedList s) = 0) :
    activeList (pinChat s i t n) = (activeList s).filter (fun c => c.id != i) := by
  have hany : (s.pinnedChats.getD []).any (fun c => c.id == i) = false := by
    rw [Bool.eq_false_iff]
    intro hc
    rw [show s.pinnedChats.getD [] = pinnedList s from rfl,
      any_id_eq_countId_pos] at hc
    omega
  cases hu : s.userChats <;> simp [pinChat, hany, activeList, hu]

lemma renameChat_activeList (s : ChatState) (i : Nat) (t : String) (j : Nat) :
    countId j (activeList (renameChat s i t).1) = countId j (activeList s) := by
  cases hu : s.userChats with
  | none =>
    simp only [renameChat, mongoSetTitle, hu]
    split <;> simp [activeList, hu]
  | some l =>
    simp only [renameChat, mongoSetTitle, hu]
    split <;> simp [activeList, hu, countId_setTitleFirst]

lemma renameChat_pinnedList (s : ChatState) (i : Nat) (t : String) (j : Nat) :
    countId j (pinnedList (renameChat s i t).1) = countId j (pinnedList s) := by
  cases hp : s.pinnedChats with
  | none =>
    simp only [renameChat, mongoSetTitle, hp]
    split <;> simp [pinnedList, hp]
  | some l =>
    simp only [renameChat, mongoSetTitle, hp]
    split <;> simp [pinnedList, hp, countId_setTitleFirst]

lemma deleteChat_activeList (s : ChatState) (i : Nat) :
    activeList (deleteChat s i).1 = (activeList s).filter (fun c => c.id != i) := by
  cases hu : s.userChats <;> simp [deleteChat, activeList, hu]

lemma deleteChat_pinnedList (s : ChatState) (i : Nat) :
    pinnedList (deleteChat s i).1 = (pinnedList s).filter (fun c => c.id != i) := by
  cases hp : s.pinnedChats <;> simp [deleteChat, pinnedList, hp]

/-! ### The projection consistency invariant -/

/-- A chat id lives in at most one of the two projections and is never
duplicated inside either one. -/
def Inv (s : ChatState) : Prop :=
  ∀ j : Nat,
    (countId j (activeList s) = 0 ∨ countId j (pinnedList s) = 0) ∧
    countId j (activeList s) ≤ 1 ∧ countId j (pinnedList s) ≤ 1

lemma inv_initial : Inv initialState := by
  intro j
  simp [initialState, activeList, pinnedList, countId]

lemma inv_create (s : ChatState) (i : Nat) (t a : String) (n : Nat)
    (hs : Inv s) (hfa : countId i (activeList s) = 0)
    (hfp : countId i (pinnedList s) = 0) :
    Inv (createChat s i t a n).1 := by
  intro j
  rw [createChat_activeList, createChat_pinnedList, countId_append,
    countId_singleton]
  obtain ⟨hm, ha1, hp1⟩ := hs j
  by_cases hj : i = j
  · subst hj
    rw [if_pos rfl]
    exact ⟨Or.inr hfp, by omega, hp1⟩
  · simp only [if_neg hj, Nat.add_zero]
    exact ⟨hm, ha1, hp1⟩

lemma inv_pin (s : ChatState) (i : Nat) (t : String) (n : Nat) (hs : Inv s) :
    Inv (pinChat s i t n) := by
  by_cases hp : 0 < countId i (pinnedList s)
  · rw [pinChat_of_pinned s i t n hp]
    exact hs
  · have hp0 : countId i (pinnedList s) = 0 := by omega
    intro j
    rw [pinChat_activeList_of_not_pinned s i t n hp0,
      pinChat_pinnedList_of_not_pinned s i t n hp0,
      countId_append, countId_singleton]
    obtain ⟨hm, ha1, hp1⟩ := hs j
    by_cases hj : i = j
    · subst hj
      rw [countId_filter_self, if_pos rfl]
      exact ⟨Or.inl rfl, by omega, by omega⟩
    · rw [countId_filter_ne i j _ (fun he => hj he.symm)]
      simp only [if_neg hj, Nat.add_zero]
      exact ⟨hm, ha1, hp1⟩

lemma inv_unpin (s : ChatState) (i : Nat) (hs : Inv s) : Inv (unpinChat s i) := by
  cases hp : s.pinnedChats with
  | none => simpa [unpinChat, hp] using hs
  | some pcs =>
    cases hf : pcs.find? (fun c => c.id == i) with
    | none => simpa [unpinChat, hp, hf] using hs
    | some c0 =>
      have hc0 : c0.id = i := by
        have := List.find?_some hf
        simpa using this
      have hc0mem : c0 ∈ pcs := List.mem_of_find?_eq_some hf
      have hplist : pinnedList s = pcs := by simp [pinnedList, hp]
      have hpin_pos : 0 < countId i (pinnedList s) := by
        rw [countId_pos, hplist]
        exact ⟨c0, hc0mem, hc0⟩
      have hact0 : countId i (activeList s) = 0 := by
        rcases (hs i).1 with h | h
        · exact h
        · omega
      intro j
      have hA : activeList (unpinChat s i) = activeList s ++ [c0] := by
        simp [unpinChat, hp, hf, activeList]
      have hP : pinnedList (unpinChat s i) = pcs.filter (fun c => c.id != i) := by
        simp [unpinChat, hp, hf, pinnedList]
      rw [hA, hP, countId_append, countId_singleton, hc0]
      obtain ⟨hm, ha1, hp1⟩ := hs j
      by_cases hj : i = j
      · subst hj
        rw [countId_filter_self, if_pos rfl]
        exact ⟨Or.inr rfl, by omega, by omega⟩
      · rw [countId_filter_ne i j _ (fun he => hj he.symm)]
        simp only [if_neg hj, Nat.add_zero]
        rw [← hplist]
        exact ⟨hm, ha1, hp1⟩

lemma inv_rename (s : ChatState) (i : Nat) (t : String) (hs : Inv s) :
    Inv (renameChat s i t).1 := by
  intro j
  rw [renameChat_activeList, renameChat_pinnedList]
  exact hs j

lemma inv_delete (s : ChatState) (i : Nat) (hs : Inv s) : Inv (deleteChat s i).1 := by
  intro j
  rw [deleteChat_activeList, deleteChat_pinnedList]
  obtain ⟨hm, ha1, hp1⟩ := hs j
  by_cases hj : j = i
  · subst hj
    rw [countId_filter_self, countId_filter_self]
    exact ⟨Or.inl rfl, by omega, by omega⟩
  · rw [countId_filter_ne i j _ hj, countId_filter_ne i j _ hj]
    exact ⟨hm, ha1, hp1⟩

/-- Every reachable state satisfies the projection consistency invariant. -/
lemma reachable_inv (s : ChatState) (h : Reachable s) : Inv s := by
  induction h with
  | init => exact inv_initial
  | step s op hs hf ih =>
    cases op with
    | create i t a n => exact inv_create s i t a n ih hf.1 hf.2
    | pin i t n => exact inv_pin s i t n ih
    | unpin i => exact inv_unpin s i ih
    | rename i t => exact inv_rename s i t ih
    | delete i => exact inv_delete s i ih

/-- A small reachable state used to instantiate the reachability-based
theorems: one chat created, then pinned. -/
def sampleState : ChatState :=
  applyOp (applyOp initialState (ChatOp.create 1 "hello" "world" 0))
    (ChatOp.pin 1 "hello" 2)

lemma sampleState_reachable : Reachable sampleState :=
  Reachable.step _ _ (Reachable.step _ _ Reachable.init ⟨rfl, rfl⟩) trivial

/-- C1: Mutual-exclusion invariant: for every chat id, after any sequence of
completed create/pin/unpin/rename/delete operations from the initial state,
the id appears in at most one of the two listing projections (its summary
count is zero in UserChats.chats or zero in PinnedChats.pinnedChats). -/
theorem chat_projections_mutually_exclusive (s : ChatState) (h : Reachable s)
    (i : Nat) :
    countId i (activeList s) = 0 ∨ countId i (pinnedList s) = 0 :=
  (reachable_inv s h i).1

theorem chat_projections_mutually_exclusive_witness :
    countId 1 (activeList sampleState) = 0 ∨
    countId 1 (pinnedList sampleState) = 0 :=
  chat_projections_mutually_exclusive sampleState sampleState_reachable 1

/-- C6: Pin is idempotent: on a reachable state where the id is already
pinned, the pin call leaves the state completely unchanged (no duplicate
insertion into PinnedChats, no removal from ActiveChats), a second pin yields
the same end state as one, and the end state holds exactly one entry with the
id in PinnedChats and zero in ActiveChats. -/
theorem pin_idempotent_no_op (s : ChatState) (hr : Reachable s) (i : Nat)
    (t t' : String) (n n' : Nat) (hp : 0 < countId i (pinnedList s)) :
    pinChat s i t n = s ∧
    pinChat (pinChat s i t n) i t' n' = pinChat s i t n ∧
    countId i (pinnedList (pinChat s i t n)) = 1 ∧
    countId i (activeList (pinChat s i t n)) = 0 := by
  have hid := pinChat_of_pinned s i t n hp
  obtain ⟨hm, ha1, hp1⟩ := reachable_inv s hr i
  refine ⟨hid, ?_, ?_, ?_⟩
  · rw [hid]
    exact pinChat_of_pinned s i t' n' hp
  · rw [hid]
    omega
  · rw [hid]
    rcases hm with h | h
    · exact h
    · omega

theorem pin_idempotent_no_op_witness :
    pinChat sampleState 1 "hello" 3 = sampleState ∧
    pinChat (pinChat sampleState 1 "hello" 3) 1 "other" 4 =
      pinChat sampleState 1 "hello" 3 ∧
    countId 1 (pinnedList (pinChat sampleState 1 "hello" 3)) = 1 ∧
    countId 1 (activeList (pinChat sampleState 1 "hello" 3)) = 0 :=
  pin_idempotent_no_op sampleState sampleState_reachable 1 "hello" "other" 3 4
    (by decide)

/-- A state whose pinned projection holds one summary pinned at time 5; the
claims about the unpin/pin round trip are exercised on it. -/
def roundtripState : ChatState :=
  { chats := [], userChats := some [],
    pinnedChats := some [{ id := 1, title := "a", createdAt := 5 }] }

/-- C2 counterexample: unpinning the summary pinned at time 5 and re-pinning
the same chat id (same title) at time 7 does restore the projection
membership, but the summary now carries createdAt 7, not its value 5 from
before the round trip — the re-pin stamps a fresh createdAt via the schema
default, so the round trip is not the identity on the createdAt field. -/
theorem unpin_pin_roundtrip_counterexample :
    pinnedList (pinChat (unpinChat roundtripState 1) 1 "a" 7) =
      [{ id := 1, title := "a", createdAt := 7 }] ∧
    activeList (pinChat (unpinChat roundtripState 1) 1 "a" 7) = [] ∧
    pinnedList roundtripState = [{ id := 1, title := "a", createdAt := 5 }] ∧
    (7 : Nat) ≠ 5 := by decide

/-- C2 amended: for a pinned chat id, unpin followed by pin of the same id
restores the projection membership (exactly one entry in PinnedChats, none in
ActiveChats), but the re-pinned summary is rebuilt from the pin request: its
title is the request-supplied title and its createdAt is freshly stamped at
pin time, not the values from before the round trip. -/
theorem unpin_pin_roundtrip_amended (s : ChatState) (i : Nat) (t : String)
    (now : Nat) (hp : 0 < countId i (pinnedList s)) :
    countId i (pinnedList (pinChat (unpinChat s i) i t now)) = 1 ∧
    countId i (activeList (pinChat (unpinChat s i) i t now)) = 0 ∧
    (pinnedList (pinChat (unpinChat s i) i t now)).find? (fun c => c.id == i) =
      some { id := i, title := t, createdAt := now } := by
  obtain ⟨pcs, hpc⟩ : ∃ pcs, s.pinnedChats = some pcs := by
    cases hc : s.pinnedChats with
    | none =>
      rw [countId_pos] at hp
      obtain ⟨c, hc1, hc2⟩ := hp
      simp [pinnedList, hc] at hc1
    | some pcs => exact ⟨pcs, rfl⟩
  have hplist : pinnedList s = pcs := by simp [pinnedList, hpc]
  obtain ⟨c0, hf⟩ : ∃ c0, pcs.find? (fun c => c.id == i) = some c0 := by
    cases hc : pcs.find? (fun c => c.id == i) with
    | none =>
      rw [List.find?_eq_none] at hc
      rw [countId_pos, hplist] at hp
      obtain ⟨c, hc1, hc2⟩ := hp
      exact absurd (by simpa using hc2) (hc c hc1)
    | some c0 => exact ⟨c0, rfl⟩
  have hP1 : pinnedList (unpinChat s i) = pcs.filter (fun c => c.id != i) := by
    simp [unpinChat, hpc, hf, pinnedList]
  have hA1 : activeList (unpinChat s i) = activeList s ++ [c0] := by
    simp [unpinChat, hpc, hf, activeList]
  have hzero : countId i (pinnedList (unpinChat s i)) = 0 := by
    rw [hP1]
    exact countId_filter_self i pcs
  have hP2 := pinChat_pinnedList_of_not_pinned (unpinChat s i) i t now hzero
  have hA2 := pinChat_activeList_of_not_pinned (unpinChat s i) i t now hzero
  refine ⟨?_, ?_, ?_⟩
  · rw [hP2, countId_append, hzero, countId_singleton, if_pos rfl]
  · rw [hA2]
    exact countId_filter_self i _
  · rw [hP2, hP1, List.find?_append]
    have hnone : (pcs.filter (fun c => c.id != i)).find?
        (fun c => c.id == i) = none := by
      rw [List.find?_eq_none]
      intro c hc
      have := (List.mem_filter.mp hc).2
      simpa using this
    rw [hnone]
    simp [List.find?]

theorem unpin_pin_roundtrip_amended_witness :
    countId 1 (pinnedList (pinChat (unpinChat roundtripState 1) 1 "a" 7)) = 1 ∧
    countId 1 (activeList (pinChat (unpinChat roundtripState 1) 1 "a" 7)) = 0 ∧
    (pinnedList (pinChat (unpinChat roundtripState 1) 1 "a" 7)).find?
        (fun c => c.id == 1) =
      some { id := 1, title := "a", createdAt := 7 } :=
  unpin_pin_roundtrip_amended roundtripState 1 "a" 7 (by decide)

lemma mongoSetTitle_zero (d : Option (List ChatSummary)) (i : Nat) (t : String)
    (h : (mongoSetTitle d i t).2 = 0) : (mongoSetTitle d i t).1 = d := by
  cases d with
  | none => rfl
  | some l =>
    by_cases he : setTitleFirst i t l = l
    · simp [mongoSetTitle, he]
    · simp [mongoSetTitle, he] at h

/-- A state with a single active chat titled "a"; rename is exercised on it. -/
def renameState : ChatState :=
  { chats := [], userChats := some [{ id := 1, title := "a", createdAt := 0 }],
    pinnedChats := none }

/-- C8 counterexample: renaming chat 1 — present only in ActiveChats — to its
current title "a" matches a row in ActiveChats, yet the handler reports 404:
it branches on modifiedCount, which is 0 for a positional set that writes the
title already stored, not on whether a row matched. -/
theorem rename_matched_row_counterexample :
    (renameChat renameState 1 "a").2 = 404 ∧
    (activeList renameState).any (fun c => c.id == 1) = true := by decide

/-- C8 amended: rename attempts ActiveChats first and attempts PinnedChats
only when no ActiveChats row was modified (no row matched, or the new title
equals the stored one); it reports 404 exactly when neither attempt modified
a row; and the title update is applied in at most one projection — when the
ActiveChats attempt modified a row, PinnedChats is untouched, and otherwise
ActiveChats is unchanged. -/
theorem rename_active_first_amended (s : ChatState) (i : Nat) (t : String) :
    ((renameChat s i t).2 = 404 ↔
      (mongoSetTitle s.userChats i t).2 = 0 ∧
      (mongoSetTitle s.pinnedChats i t).2 = 0) ∧
    ((mongoSetTitle s.userChats i t).2 ≠ 0 →
      (renameChat s i t).1.pinnedChats = s.pinnedChats ∧
      (renameChat s i t).2 = 200) ∧
    ((mongoSetTitle s.userChats i t).2 = 0 →
      (renameChat s i t).1.userChats = s.userChats) := by
  by_cases h1 : (mongoSetTitle s.userChats i t).2 = 0
  · have hu := mongoSetTitle_zero s.userChats i t h1
    by_cases h2 : (mongoSetTitle s.pinnedChats i t).2 = 0
    · refine ⟨?_, fun hc => absurd h1 hc, fun _ => ?_⟩
      · simp [renameChat, h1, h2]
      · simp [renameChat, h1, hu]
    · have h2p : 0 < (mongoSetTitle s.pinnedChats i t).2 :=
        Nat.pos_of_ne_zero h2
      refine ⟨?_, fun hc => absurd h1 hc, fun _ => ?_⟩
      · simp [renameChat, h1, h2p, h2]
      · simp [renameChat, h1, hu]
  · refine ⟨?_, fun _ => ⟨?_, ?_⟩, fun hc => absurd hc h1⟩
    · simp [renameChat, h1]
    · simp [renameChat, h1]
    · simp [renameChat, h1]

theorem rename_active_first_amended_witness :
    ((renameChat renameState 1 "a").2 = 404 ↔
      (mongoSetTitle renameState.userChats 1 "a").2 = 0 ∧
      (mongoSetTitle renameState.pinnedChats 1 "a").2 = 0) ∧
    ((mongoSetTitle renameState.userChats 1 "a").2 ≠ 0 →
      (renameChat renameState 1 "a").1.pinnedChats = renameState.pinnedChats ∧
      (renameChat renameState 1 "a").2 = 200) ∧
    ((mongoSetTitle renameState.userChats 1 "a").2 = 0 →
      (renameChat renameState 1 "a").1.userChats = renameState.userChats) :=
  rename_active_first_amended renameState 1 "a"

lemma deleteFirstRecord_countP (i : Nat) (l : List ChatRecord)
    (h : l.countP (fun c => c.id == i) ≤ 1) :
    (deleteFirstRecord i l).1.countP (fun c => c.id == i) = 0 := by
  induction l with
  | nil => rfl
  | cons c cs ih =>
    by_cases hc : c.id = i
    · rw [List.countP_cons] at h
      simp only [deleteFirstRecord, if_pos (show (c.id == i) = true by simpa using hc)]
      have : cs.countP (fun c => c.id == i) = 0 := by
        simp only [show (c.id == i) = true by simpa using hc, if_pos] at h
        omega
      exact this
    · rw [List.countP_cons] at h
      simp only [deleteFirstRecord,
        if_neg (show ¬(c.id == i) = true by simpa using hc)]
      rw [List.countP_cons]
      simp only [show (c.id == i) = false by simpa using hc]
      have := ih (by omega)
      simpa using this

lemma deleteFirstRecord_none (i : Nat) (l : List ChatRecord) :
    (deleteFirstRecord i l).2 = 0 ↔ ∀ c ∈ l, c.id ≠ i := by
  induction l with
  | nil => simp [deleteFirstRecord]
  | cons c cs ih =>
    by_cases hc : c.id = i
    · simp only [deleteFirstRecord,
        if_pos (show (c.id == i) = true by simpa using hc)]
      simp [hc]
    · simp only [deleteFirstRecord,
        if_neg (show ¬(c.id == i) = true by simpa using hc)]
      simp [hc, ih]

/-- The single chat record of `deleteState`. -/
def deleteRecord : ChatRecord :=
  { id := 1, userId := "demouser",
    history := [{ role := "user", content := "q" }] }

/-- A state with one chat record, listed in ActiveChats. -/
def deleteState : ChatState :=
  { chats := [deleteRecord],
    userChats := some [{ id := 1, title := "q", createdAt := 0 }],
    pinnedChats := none }

/-- C9 counterexample: after a successful delete of chat 1, the fetch-by-id
handler answers status 200 with a null body — it has no not-found branch —
instead of reporting NotFound. -/
theorem delete_then_fetch_counterexample :
    (deleteChat deleteState 1).2 = 200 ∧
    getChat (deleteChat deleteState 1).1 1 = (200, none) ∧
    (getChat (deleteChat deleteState 1).1 1).1 ≠ 404 := by decide

/-- C9 amended: delete removes the id from ActiveChats, from PinnedChats and
from the Chat collection (the projection removals are attempted even when the
record is absent, in which case it reports 404); but a subsequent fetch-by-id
returns a success status 200 with an empty body rather than a NotFound
report. The hypothesis is Mongo's uniqueness of `_id` in the Chat
collection. -/
theorem delete_chat_amended (s : ChatState) (i : Nat)
    (h : s.chats.countP (fun c => c.id == i) ≤ 1) :
    countId i (activeList (deleteChat s i).1) = 0 ∧
    countId i (pinnedList (deleteChat s i).1) = 0 ∧
    getChat (deleteChat s i).1 i = (200, none) ∧
    ((deleteChat s i).2 = 404 ↔ ∀ c ∈ s.chats, c.id ≠ i) := by
  refine ⟨?_, ?_, ?_, ?_⟩
  · rw [deleteChat_activeList]
    exact countId_filter_self i _
  · rw [deleteChat_pinnedList]
    exact countId_filter_self i _
  · have hchats : (deleteChat s i).1.chats = (deleteFirstRecord i s.chats).1 := rfl
    have hz := deleteFirstRecord_countP i s.chats h
    have hnone : (deleteFirstRecord i s.chats).1.find?
        (fun c => c.id == i && c.userId == "demouser") = none := by
      rw [List.find?_eq_none]
      intro c hc
      have : c.id ≠ i := by
        rw [List.countP_eq_zero] at hz
        have := hz c hc
        simpa using this
      simp [this]
    unfold getChat
    rw [hchats, hnone]
  · have hsnd : (deleteChat s i).2 =
        if (deleteFirstRecord i s.chats).2 > 0 then 200 else 404 := rfl
    rw [hsnd, ← deleteFirstRecord_none i s.chats]
    by_cases hz : (deleteFirstRecord i s.chats).2 = 0
    · simp [hz]
    · have : 0 < (deleteFirstRecord i s.chats).2 := Nat.pos_of_ne_zero hz
      simp [this, hz]

theorem delete_chat_amended_witness :
    countId 1 (activeList (deleteChat deleteState 1).1) = 0 ∧
    countId 1 (pinnedList (deleteChat deleteState 1).1) = 0 ∧
    getChat (deleteChat deleteState 1).1 1 = (200, none) ∧
    ((deleteChat deleteState 1).2 = 404 ↔ ∀ c ∈ deleteState.chats, c.id ≠ 1) :=
  delete_chat_amended deleteState 1 (by decide)

/-! ### Conversation context store and generation gateway -/

/-- The process-wide `userSessions` object: per-user list of formatted turns
(a missing key behaves as the empty list, which is what the
`if (!userSessions[userId]) userSessions[userId] = []` initialisation
establishes). -/
def Sessions : Type := String → List String

/-- Assignment `userSessions[userId] = h`. -/
def updateSessions (ss : Sessions) (userId : String) (h : List String) :
    Sessions :=
  fun u => if u = userId then h else ss u

/-- `userSessions[userId].push(turn)`: appends one formatted turn; nothing is
ever removed from the stored buffer. -/
def appendTurn (ss : Sessions) (userId turn : String) : Sessions :=
  updateSessions ss userId (ss userId ++ [turn])

/-- `chatHistory.slice(-5)`: the last (at most) five entries, oldest first. -/
def getContextWindow (h : List String) : List String :=
  h.drop (h.length - 5)

/-- `chatHistory.slice(-5).join("\n")`. -/
def conversationContext (h : List String) : String :=
  String.intercalate "\n" (getContextWindow h)

/-- Outcome of one Bedrock backend call: a thrown error, or a response whose
`output?.text` is the optional payload. -/
inductive BackendResult where
  | failure
  | success (output : Option String)
deriving Repr, DecidableEq

/-- The `x || fallback` idiom on the optional generated text: the fallback is
used when the field is absent or the empty (falsy) string. -/
def textOrFallback (o : Option String) (fallback : String) : String :=
  match o with
  | none => fallback
  | some t => if t = "" then fallback else t

/-- `retrieveAndGenerateResponse` from utils/bedrockService.js: build the
context from the last five turns, push the `User:` turn, call the grounded
backend; on success push the `Bot:` turn and return the text (or the
"No response generated." fallback); any backend error is caught and the
sentinel "Error retrieving from Knowledge Base" returned instead — the
function never throws. Returns the text and the updated sessions. -/
def retrieveAndGenerateResponse (ss : Sessions) (backend : BackendResult)
    (query userId : String) : String × Sessions :=
  let ss1 := appendTurn ss userId ("User: " ++ query)
  match backend with
  | .failure => ("Error retrieving from Knowledge Base", ss1)
  | .success out =>
    let generatedText := textOrFallback out "No response generated."
    (generatedText, appendTurn ss1 userId ("Bot: " ++ generatedText))

/-- `generateWithBedrock` from utils/bedrockService.js: same shape in
free-form mode, with the sentinel "Error in AI generation". -/
def generateWithBedrock (ss : Sessions) (backend : BackendResult)
    (query userId : String) : String × Sessions :=
  let ss1 := appendTurn ss userId ("User: " ++ query)
  match backend with
  | .failure => ("Error in AI generation", ss1)
  | .success out =>
    let generatedText := textOrFallback out "No response generated."
    (generatedText, appendTurn ss1 userId ("Bot: " ++ generatedText))

/-- What the POST /api/retrieve-and-generate handler produces: an HTTP
status, the JSON payload text, the prompt submitted to the backend, and the
resulting session store. -/
structure GenOutcome where
  status : Nat
  body : String
  promptSent : String
  sessions : Sessions

/-- POST /api/retrieve-and-generate: inlines the gateway logic — context from
the last five turns, push the `User:` turn, call the backend with the
`Context: ...\nUser: ...` prompt; on success push the `Bot:` turn and answer
200 with the text (or fallback); on a backend error answer 500 with an error
payload (the user turn stays pushed). -/
def retrieveAndGenerateHandler (ss : Sessions) (backend : BackendResult)
    (userId query : String) : GenOutcome :=
  let chatHistory := ss userId
  let prompt :=
    "Context: " ++ conversationContext chatHistory ++ "\nUser: " ++ query
  let ss1 := appendTurn ss userId ("User: " ++ query)
  match backend with
  | .failure =>
    { status := 500, body := "Error retrieving from Knowledge Base",
      promptSent := prompt, sessions := ss1 }
  | .success out =>
    let generatedText := textOrFallback out "No response generated."
    { status := 200, body := generatedText, promptSent := prompt,
      sessions := appendTurn ss1 userId ("Bot: " ++ generatedText) }

/-- The environment values the instant-lookup mapping reads
(`process.env.DATA_SOURCE_ONE_ID` / `DATA_SOURCE_TWO_ID`; `none` models an
unset variable). -/
structure Env where
  dataSourceOneId : Option String
  dataSourceTwoId : Option String
deriving Repr, DecidableEq

/-- The static named-source mapping inside `fetchInstantResponse`:
`{"amp-data-pipgpt": ..., "amp-test-data-2": ...}`; any other key gives
`undefined`. -/
def dataSources (env : Env) (key : String) : Option String :=
  if key = "amp-data-pipgpt" then env.dataSourceOneId
  else if key = "amp-test-data-2" then env.dataSourceTwoId
  else none

/-- `fetchInstantResponse(query, dataSource)`: resolve the data-source id; a
falsy id (unknown key, unset or empty env value) throws, but the throw is
caught by the function's own catch, which returns the sentinel
"Error retrieving response."; otherwise the backend is called and the text or
the "No response generated." fallback returned; backend errors hit the same
catch. The Bool reports whether a backend call was attempted. -/
def fetchInstantResponse (env : Env) (backend : BackendResult)
    (query dataSource : String) : String × Bool :=
  match dataSources env dataSource with
  | none => ("Error retrieving response.", false)
  | some dsId =>
    if dsId = "" then ("Error retrieving response.", false)
    else
      match backend with
      | .failure => ("Error retrieving response.", true)
      | .success out => (textOrFallback out "No response generated.", true)

/-- POST /api/instant-lookup: 400 only when query or dataSource is missing
(falsy); otherwise answer 200 with `fetchInstantResponse`'s text (defaulted
once more through `response || "No response generated."`). The handler's own
catch is dead code because `fetchInstantResponse` never throws. Returns
((status, payload), backend call attempted). -/
def instantLookupHandler (env : Env) (backend : BackendResult)
    (query dataSource : String) : (Nat × String) × Bool :=
  if query = "" ∨ dataSource = "" then
    ((400, "Query and Data Source are required"), false)
  else
    let r := fetchInstantResponse env backend query dataSource
    ((200, if r.1 = "" then "No response generated." else r.1), r.2)

/-- A concrete environment with both named data sources configured. -/
def envSample : Env :=
  { dataSourceOneId := some "ds-1", dataSourceTwoId := some "ds-2" }

/-- C3 counterexample: an instant lookup with the unmapped key
"unknown-source" attempts no backend call, but it is not surfaced as a
400-equivalent: the throw is swallowed inside fetchInstantResponse and the
caller receives status 200 with the sentinel body. -/
theorem instant_lookup_unknown_source_counterexample :
    instantLookupHandler envSample (BackendResult.success (some "text")) "hi"
        "unknown-source" =
      ((200, "Error retrieving response."), false) ∧
    (200 : Nat) ≠ 400 := by decide

/-- C3 amended: for a present query and a dataSource key outside the static
mapping, no backend call is attempted, but the failure is absorbed rather
than surfaced: the handler answers 200 with the sentinel
"Error retrieving response." (a 400 arises only from a missing query or
dataSource). -/
theorem instant_lookup_unknown_source_amended (env : Env)
    (backend : BackendResult) (q ds : String) (hq : q ≠ "") (hds : ds ≠ "")
    (hun : dataSources env ds = none) :
    instantLookupHandler env backend q ds =
      ((200, "Error retrieving response."), false) := by
  simp [instantLookupHandler, hq, hds, fetchInstantResponse, hun]

theorem instant_lookup_unknown_source_amended_witness :
    instantLookupHandler envSample BackendResult.failure "hi" "unknown-source" =
      ((200, "Error retrieving response."), false) :=
  instant_lookup_unknown_source_amended envSample BackendResult.failure "hi"
    "unknown-source" (by decide) (by decide) (by decide)

/-- The empty session store. -/
def emptySessions : Sessions := fun _ => []

/-- C4 counterexample: on a backend failure the interactive
/api/retrieve-and-generate handler answers HTTP 500 — the failure is not
absorbed into a successful response for the caller of that endpoint. -/
theorem generation_failure_counterexample :
    (retrieveAndGenerateHandler emptySessions BackendResult.failure "u1"
        "hi").status = 500 ∧
    (500 : Nat) ≠ 200 := by
  exact ⟨rfl, by decide⟩

/-- C4 amended: the gateway functions of the service module absorb every
backend failure into a fixed sentinel string and map empty output to the
"No response generated." fallback, never throwing; but the interactive
/api/retrieve-and-generate route handler inlines the generation logic and
answers 500 on a backend failure (200 with text or fallback otherwise), so
that endpoint does fail its caller for a generation problem. -/
theorem generation_gateway_amended (ss : Sessions) (backend : BackendResult)
    (q u : String) :
    (retrieveAndGenerateResponse ss backend q u).1 =
      (match backend with
       | .failure => "Error retrieving from Knowledge Base"
       | .success out => textOrFallback out "No response generated.") ∧
    (generateWithBedrock ss backend q u).1 =
      (match backend with
       | .failure => "Error in AI generation"
       | .success out => textOrFallback out "No response generated.") ∧
    (retrieveAndGenerateHandler ss backend u q).status =
      (match backend with
       | .failure => 500
       | .success _ => 200) := by
  cases backend <;> exact ⟨rfl, rfl, rfl⟩

theorem generation_gateway_amended_witness :
    (retrieveAndGenerateResponse emptySessions BackendResult.failure "hi"
        "u1").1 =
      (match BackendResult.failure with
       | .failure => "Error retrieving from Knowledge Base"
       | .success out => textOrFallback out "No response generated.") ∧
    (generateWithBedrock emptySessions BackendResult.failure "hi" "u1").1 =
      (match BackendResult.failure with
       | .failure => "Error in AI generation"
       | .success out => textOrFallback out "No response generated.") ∧
    (retrieveAndGenerateHandler emptySessions BackendResult.failure "u1"
        "hi").status =
      (match BackendResult.failure with
       | .failure => 500
       | .success _ => 200) :=
  generation_gateway_amended emptySessions BackendResult.failure "hi" "u1"

/-- C7: the prompt of the interactive handler embeds a context built from
`slice(-5)` of the per-user buffer: at most the last five formatted turns, a
suffix of the buffer (hence oldest first); appends only ever extend the
buffer, which is never pruned, and after 12 appends the window is exactly
turns 8 to 12. -/
theorem context_window_last_five (ss : Sessions) (backend : BackendResult)
    (u q : String) :
    (retrieveAndGenerateHandler ss backend u q).promptSent =
      "Context: " ++ String.intercalate "\n" (getContextWindow (ss u)) ++
        "\nUser: " ++ q ∧
    (getContextWindow (ss u)).length ≤ 5 ∧
    getContextWindow (ss u) <:+ ss u ∧
    (∀ l : List String,
      (l.foldl (fun acc turn => appendTurn acc u turn) ss) u = ss u ++ l) ∧
    (∀ h : List String, h.length = 12 → getContextWindow h = h.drop 7) := by
  refine ⟨?_, ?_, ?_, ?_, ?_⟩
  · cases backend <;> rfl
  · rw [getContextWindow, List.length_drop]
    omega
  · exact List.drop_suffix _ _
  · intro l
    induction l generalizing ss with
    | nil => simp
    | cons turn ts ih =>
      rw [List.foldl_cons, ih]
      show appendTurn ss u turn u ++ ts = ss u ++ (turn :: ts)
      simp [appendTurn, updateSessions]
  · intro h hh
    rw [getContextWindow, hh]

theorem context_window_last_five_witness :
    (retrieveAndGenerateHandler emptySessions BackendResult.failure "u1"
        "hi").promptSent =
      "Context: " ++
        String.intercalate "\n" (getContextWindow (emptySessions "u1")) ++
        "\nUser: " ++ "hi" ∧
    (getContextWindow (emptySessions "u1")).length ≤ 5 ∧
    getContextWindow (emptySessions "u1") <:+ emptySessions "u1" ∧
    (∀ l : List String,
      (l.foldl (fun acc turn => appendTurn acc "u1" turn) emptySessions) "u1" =
        emptySessions "u1" ++ l) ∧
    (∀ h : List String, h.length = 12 → getContextWindow h = h.drop 7) :=
  context_window_last_five emptySessions BackendResult.failure "u1" "hi"

lemma mem_getContextWindow_last (h : List String) (x : String) :
    x ∈ getContextWindow (h ++ [x]) := by
  unfold getContextWindow
  rw [List.drop_append_eq_append_drop]
  refine List.mem_append.mpr (Or.inr ?_)
  have hz : (h ++ [x]).length - 5 - h.length = 0 := by
    rw [List.length_append]
    simp
  rw [hz]
  simp

/-- C10: when the backend call fails, the `User:` turn pushed before the call
stays in the per-user buffer and no `Bot:` turn is appended — the buffer
grows by exactly one entry — and that turn is inside the context window a
later request would build; this holds for the inlined handler and for both
gateway modes of the service module. -/
theorem failed_generation_grows_buffer (ss : Sessions) (u q : String) :
    (retrieveAndGenerateHandler ss BackendResult.failure u q).sessions u =
      ss u ++ ["User: " ++ q] ∧
    ((retrieveAndGenerateHandler ss BackendResult.failure u q).sessions
        u).length = (ss u).length + 1 ∧
    ("User: " ++ q) ∈ getContextWindow
      ((retrieveAndGenerateHandler ss BackendResult.failure u q).sessions u) ∧
    (retrieveAndGenerateResponse ss BackendResult.failure q u).2 u =
      ss u ++ ["User: " ++ q] ∧
    (generateWithBedrock ss BackendResult.failure q u).2 u =
      ss u ++ ["User: " ++ q] := by
  have hs : (retrieveAndGenerateHandler ss BackendResult.failure u q).sessions
      u = ss u ++ ["User: " ++ q] := by
    simp [retrieveAndGenerateHandler, appendTurn, updateSessions]
  refine ⟨hs, ?_, ?_, ?_, ?_⟩
  · rw [hs]
    simp
  · rw [hs]
    exact mem_getContextWindow_last _ _
  · simp [retrieveAndGenerateResponse, appendTurn, updateSessions]
  · simp [generateWithBedrock, appendTurn, updateSessions]

theorem failed_generation_grows_buffer_witness :
    (retrieveAndGenerateHandler emptySessions BackendResult.failure "u1"
        "hi").sessions "u1" = emptySessions "u1" ++ ["User: " ++ "hi"] ∧
    ((retrieveAndGenerateHandler emptySessions BackendResult.failure "u1"
        "hi").sessions "u1").length = (emptySessions "u1").length + 1 ∧
    ("User: " ++ "hi") ∈ getContextWindow
      ((retrieveAndGenerateHandler emptySessions BackendResult.failure "u1"
        "hi").sessions "u1") ∧
    (retrieveAndGenerateResponse emptySessions BackendResult.failure "hi"
        "u1").2 "u1" = emptySessions "u1" ++ ["User: " ++ "hi"] ∧
    (generateWithBedrock emptySessions BackendResult.failure "hi" "u1").2
        "u1" = emptySessions "u1" ++ ["User: " ++ "hi"] :=
  failed_generation_grows_buffer emptySessions "u1" "hi"

/-! ### Document registry and index synchronization -/

/-- A document of the `Document` collection: `{_id, userId, fileName,
fileUrl, contentType}` from models/document.js (uploadedAt is irrelevant to
the claims and omitted). -/
structure DocRecord where
  id : Nat
  userId : String
  fileName : String
  fileUrl : String
  contentType : String
deriving Repr, DecidableEq

/-- The state touched by the document routes: the Mongo `Document`
collection, the S3 bucket's object keys, the trace of started ingestion jobs
(their client tokens), and the generator of fresh uuidv4 client tokens
(every drawn token is the current counter value, so freshness means being
distinct from all previously recorded tokens). -/
structure DocState where
  documents : List DocRecord
  bucket : List String
  ingestionJobs : List Nat
  nextToken : Nat
deriving Repr, DecidableEq

/-- Whether the `StartIngestionJobCommand` send succeeds or throws. -/
inductive IngestOutcome where
  | ok
  | fail
deriving Repr, DecidableEq

/-- `document.fileUrl.split("/").pop()`: the object key is the last
URL component. -/
def fileKeyFromUrl (url : String) : String :=
  (url.splitOn "/").getLastD ""

/-- `triggerBedrockReIngestion`: list every key in the bucket; when none are
left, skip re-ingestion entirely; otherwise draw a fresh uuidv4 client token
and start one ingestion job — and if that send throws, the error is caught
and logged, so the caller proceeds either way (the drawn token is consumed
but no job is recorded). -/
def triggerBedrockReIngestion (s : DocState) (backend : IngestOutcome) :
    DocState :=
  if s.bucket.length > 0 then
    match backend with
    | .ok =>
      { s with
        ingestionJobs := s.ingestionJobs ++ [s.nextToken],
        nextToken := s.nextToken + 1 }
    | .fail => { s with nextToken := s.nextToken + 1 }
  else s

/-- DELETE /api/documents/:id: resolve the DocumentRecord (404 when absent),
delete the blob under the key derived from its fileUrl, delete the registry
row, then run `triggerBedrockReIngestion`; answers 200 once the blob and the
row are gone, whatever the re-ingestion trigger did. -/
def deleteDocumentHandler (s : DocState) (backend : IngestOutcome) (i : Nat) :
    DocState × Nat :=
  match s.documents.find? (fun d => d.id == i) with
  | none => (s, 404)
  | some doc =>
    let fileKey := fileKeyFromUrl doc.fileUrl
    let s1 := { s with bucket := s.bucket.filter (fun k => k != fileKey) }
    let s2 :=
      { s1 with documents := s1.documents.filter (fun d => d.id != i) }
    (triggerBedrockReIngestion s2 backend, 200)

/-- C5: deleting a document answers 200 whether or not the ingestion trigger
fails; when the bucket is empty after the blob delete no ingestion job is
started; when objects remain and the trigger succeeds, exactly one job is
started and it carries the freshly drawn token, which (tokens being drawn
from a strictly growing counter) was never used before; and when the trigger
alone fails the delete still completes with no job recorded. -/
theorem document_delete_reingestion (s : DocState) (backend : IngestOutcome)
    (i : Nat) (doc : DocRecord)
    (hfind : s.documents.find? (fun d => d.id == i) = some doc)
    (hfresh : ∀ tk ∈ s.ingestionJobs, tk < s.nextToken) :
    (deleteDocumentHandler s backend i).2 = 200 ∧
    (s.bucket.filter (fun k => k != fileKeyFromUrl doc.fileUrl) = [] →
      (deleteDocumentHandler s backend i).1.ingestionJobs = s.ingestionJobs) ∧
    (s.bucket.filter (fun k => k != fileKeyFromUrl doc.fileUrl) ≠ [] →
      backend = IngestOutcome.ok →
      (deleteDocumentHandler s backend i).1.ingestionJobs =
        s.ingestionJobs ++ [s.nextToken] ∧
      s.nextToken ∉ s.ingestionJobs) ∧
    (backend = IngestOutcome.fail →
      (deleteDocumentHandler s backend i).1.ingestionJobs = s.ingestionJobs) := by
  have hnotmem : s.nextToken ∉ s.ingestionJobs := by
    intro hmem
    exact absurd (hfresh _ hmem) (by omega)
  refine ⟨?_, ?_, ?_, ?_⟩
  · simp [deleteDocumentHandler, hfind]
  · intro hempty
    simp [deleteDocumentHandler, hfind, triggerBedrockReIngestion, hempty]
  · intro hne hok
    subst hok
    have hpos : 0 < (s.bucket.filter
        (fun k => k != fileKeyFromUrl doc.fileUrl)).length :=
      List.length_pos.mpr hne
    refine ⟨?_, hnotmem⟩
    simp [deleteDocumentHandler, hfind, triggerBedrockReIngestion, hpos]
  · intro hfail
    subst hfail
    simp only [deleteDocumentHandler, hfind, triggerBedrockReIngestion]
    split
    · rfl
    · rfl

/-- The single registry row of `docStateSample`. -/
def docSample : DocRecord :=
  { id := 1, userId := "u1", fileName := "f.pdf",
    fileUrl := "https://bucket.s3.region.amazonaws.com/abc-f.pdf",
    contentType := "application/pdf" }

/-- A one-document state whose bucket still holds a second object. -/
def docStateSample : DocState :=
  { documents := [docSample],
    bucket := ["abc-f.pdf", "other.txt"],
    ingestionJobs := [0, 1],
    nextToken := 2 }

theorem document_delete_reingestion_witness :
    (deleteDocumentHandler docStateSample IngestOutcome.ok 1).2 = 200 ∧
    (docStateSample.bucket.filter
        (fun k => k != fileKeyFromUrl docSample.fileUrl) = [] →
      (deleteDocumentHandler docStateSample IngestOutcome.ok 1).1.ingestionJobs =
        docStateSample.ingestionJobs) ∧
    (docStateSample.bucket.filter
        (fun k => k != fileKeyFromUrl docSample.fileUrl) ≠ [] →
      IngestOutcome.ok = IngestOutcome.ok →
      (deleteDocumentHandler docStateSample IngestOutcome.ok 1).1.ingestionJobs =
        docStateSample.ingestionJobs ++ [docStateSample.nextToken] ∧
      docStateSample.nextToken ∉ docStateSample.ingestionJobs) ∧
    (IngestOutcome.ok = IngestOutcome.fail →
      (deleteDocumentHandler docStateSample IngestOutcome.ok 1).1.ingestionJobs =
        docStateSample.ingestionJobs) :=
  document_delete_reingestion docStateSample IngestOutcome.ok 1 docSample rfl
    (by decide)

end PipGPT
